import Mathlib

/-!
Verification of the task-tracker CLI (`src/task-tracker/task_cli.py`).

The Python program is a single file of CRUD operations over a JSON file
holding a list of task records.  We embed it shallowly:

* A task record is the structure `Task` (id, description, status,
  createdAt, updatedAt).  The program stores timestamps as formatted
  strings produced by a wall clock; following the spec's clock-capability
  note (§9), timestamp acquisition is modelled as an explicit `now : Nat`
  parameter threaded into each operation, with larger values meaning
  later wall-clock instants.
* The store file is modelled at two levels.  For the load/validation
  behaviour of `read_tasks` the file content is raw JSON (`Json`), and a
  file is `Option (Option Json)`: `none` = file absent
  (`FileNotFoundError`), `some none` = unparsable text
  (`json.JSONDecodeError`), `some (some j)` = text parsing to `j`.
  For the task operations the collection already in memory is a
  `List Task`.
* Each operation returns an `OpResult`: the collection afterwards,
  whether `write_tasks` was called (`wrote`), and the line printed.
  Python exceptions that an operation does not catch are modelled with
  `Except PyExc` / `Outcome.crashed`.
-/

namespace TaskCli

/-- Raw JSON values, as produced by Python's `json.load`. -/
inductive Json where
  | null : Json
  | bool (b : Bool) : Json
  | num (n : Int) : Json
  | str (s : String) : Json
  | arr (elems : List Json) : Json
  | obj (fields : List (String × Json)) : Json

/-- The Python exception classes that appear in `task_cli.py`. -/
inductive PyExc where
  | fileNotFoundError : PyExc
  | valueError : PyExc
  | typeError : PyExc
  | osError : PyExc
deriving DecidableEq, Repr

/-- How a CLI code path ends: a printed line (normal return) or an
uncaught exception terminating the process abnormally. -/
inductive Outcome where
  | printed (msg : String) : Outcome
  | crashed (e : PyExc) : Outcome
deriving DecidableEq, Repr

/-- A task record, with the five fields the program creates in
`add_task` (lines 131-137).  Timestamps are clock readings (see the
module comment); `id` is an `Int` since the records come from JSON and
the CLI parses ids with Python `int()`. -/
structure Task where
  id : Int
  description : String
  status : String
  createdAt : Nat
  updatedAt : Nat
deriving DecidableEq, Repr

/-- Result of one task operation: the in-memory collection when the
operation returns, whether `write_tasks` ran, and the printed line. -/
structure OpResult where
  tasks : List Task
  wrote : Bool
  message : String
deriving DecidableEq, Repr

/-- `read_tasks` (lines 52-84): `FileNotFoundError` if the file is
absent; `ValueError` if the content is unparsable JSON or parses to a
non-list; otherwise the parsed list is returned exactly as stored.
`ValueError` is the `Corrupt` error kind of the spec, and
`FileNotFoundError` its `NotFound`. -/
def read_tasks : Option (Option Json) → Except PyExc (List Json)
  | none => Except.error PyExc.fileNotFoundError
  | some none => Except.error PyExc.valueError
  | some (some (Json.arr elems)) => Except.ok elems
  | some (some _) => Except.error PyExc.valueError

/-- The record condition stated by the spec (§4.1): a task-like record
carries the five fields `id`, `description`, `status`, `createdAt`,
`updatedAt`.  This follows the spec's words (not the code): `read_tasks`
performs no such per-record check, which is what claim C5 is about. -/
def isTaskRecord : Json → Bool
  | Json.obj fields =>
      ["id", "description", "status", "createdAt", "updatedAt"].all
        (fun k => (fields.map Prod.fst).contains k)
  | _ => false

/-- `add_task`, in-memory part (lines 131-140): builds the new record
with `id = len(tasks) + 1`, status `todo`, both timestamps `now`,
appends it and writes. -/
def add_task (description : String) (now : Nat) (tasks : List Task) : OpResult :=
  let task : Task :=
    { id := (tasks.length : Int) + 1
      description := description
      status := "todo"
      createdAt := now
      updatedAt := now }
  { tasks := tasks ++ [task]
    wrote := true
    message := "Task added successfully (ID: " ++ toString task.id ++ ")" }

/-- The read prologue of `add_task` (lines 124-129): the `try` block
catches only `FileNotFoundError` (re-initialising and continuing with
an empty list); a `ValueError` raised by `read_tasks` on a corrupt
store is not caught and escapes `add_task`. -/
def add_task_read (file : Option (Option Json)) : Except PyExc (List Json) :=
  match read_tasks file with
  | Except.error PyExc.fileNotFoundError => Except.ok []
  | Except.error e => Except.error e
  | Except.ok tasks => Except.ok tasks

/-- `list_tasks`, selection part (lines 162-187): the filter runs only
under Python's `if status:`, i.e. only when the status argument is
neither `None` nor the empty string; it keeps the tasks whose `status`
equals the filter, in order.  The function never calls `write_tasks`. -/
def list_tasks (status : Option String) (tasks : List Task) : List Task :=
  match status with
  | none => tasks
  | some s => if s.isEmpty then tasks else tasks.filter (fun t => t.status == s)

/-- The `for task in tasks: if task["id"] == task_id:` search-and-replace
loop shared verbatim by `update_task` (lines 215-221) and `mark_task`
(lines 283-289): replace the first record whose id matches and stop;
`none` when no record matches. -/
def update_first (task_id : Int) (f : Task → Task) : List Task → Option (List Task)
  | [] => none
  | t :: ts =>
      if t.id = task_id then some (f t :: ts)
      else (update_first task_id f ts).map (fun l => t :: l)

/-- `update_task` (lines 190-223): replace the first matching record's
description, refresh `updatedAt`, write and report; otherwise report
not-found without writing. -/
def update_task (task_id : Int) (new_description : String) (now : Nat)
    (tasks : List Task) : OpResult :=
  match update_first task_id
      (fun t => { t with description := new_description, updatedAt := now }) tasks with
  | some new_tasks =>
      { tasks := new_tasks
        wrote := true
        message := "Task " ++ toString task_id ++ " updated successfully." }
  | none =>
      { tasks := tasks
        wrote := false
        message := "Task with ID " ++ toString task_id ++ " not found." }

/-- `mark_task` (lines 259-291): replace the first matching record's
status with the given string (no validation of the string), refresh
`updatedAt`, write and report; otherwise report not-found without
writing. -/
def mark_task (task_id : Int) (status : String) (now : Nat)
    (tasks : List Task) : OpResult :=
  match update_first task_id
      (fun t => { t with status := status, updatedAt := now }) tasks with
  | some new_tasks =>
      { tasks := new_tasks
        wrote := true
        message := "Task " ++ toString task_id ++ " marked as " ++ status ++ "." }
  | none =>
      { tasks := tasks
        wrote := false
        message := "Task with ID " ++ toString task_id ++ " not found." }

/-- `delete_task` (lines 226-256): keep the records whose id differs;
if the length did not change report not-found and return without
writing, else write the filtered list. -/
def delete_task (task_id : Int) (tasks : List Task) : OpResult :=
  let new_tasks := tasks.filter (fun t => t.id != task_id)
  if new_tasks.length = tasks.length then
    { tasks := tasks
      wrote := false
      message := "Task with ID " ++ toString task_id ++ " not found." }
  else
    { tasks := new_tasks
      wrote := true
      message := "Task " ++ toString task_id ++ " deleted successfully." }

/-- Python truthiness of an optional string argument (`if task_info:`):
false for `None` and for the empty string. -/
def pyTruthy : Option String → Bool
  | none => false
  | some s => !s.isEmpty

/-- The `add` branch of `main` (lines 336-340): only a truthy
`task_info` reaches `add_task`; otherwise an error line is printed and
nothing is read or written. -/
def main_add_branch (task_info : Option String) (now : Nat)
    (tasks : List Task) : OpResult :=
  if pyTruthy task_info then
    add_task (task_info.getD "") now tasks
  else
    { tasks := tasks
      wrote := false
      message := "Error: Missing task description for add command." }

/-- Decimal accumulator for `pyInt?`. -/
def parseNatAux : List Char → Nat → Option Nat
  | [], acc => some acc
  | c :: cs, acc =>
      if c.isDigit then parseNatAux cs (acc * 10 + (c.toNat - 48))
      else none

/-- Python's `int()` on a string argument (for the decimal forms the
CLI passes): an optional minus sign followed by digits; `none` models
the `ValueError` that `main` catches around the conversion. -/
def pyInt? (s : String) : Option Int :=
  match s.data with
  | [] => none
  | c :: cs =>
      if c = '-' then
        match cs with
        | [] => none
        | _ => (parseNatAux cs 0).map (fun n => -(n : Int))
      else (parseNatAux (c :: cs) 0).map (fun n => (n : Int))

/-- The `update` branch of `main` (lines 345-353).  For a truthy
`task_info` that parses as an integer, the source calls
`update_task(task_id)` — omitting the required `new_description`
parameter — so Python raises `TypeError` at the call site, before the
operation body runs, and no handler catches it. -/
def main_update_branch (task_info : Option String) : Outcome :=
  match task_info with
  | none =>
      Outcome.printed "Error: Missing task ID or new description for update command."
  | some s =>
      if s.isEmpty then
        Outcome.printed "Error: Missing task ID or new description for update command."
      else
        match pyInt? s with
        | none => Outcome.printed "Error: Task ID must be an integer."
        | some _ => Outcome.crashed PyExc.typeError

/-- Sample records used in concrete evaluations. -/
def t1 : Task := { id := 1, description := "buy milk", status := "todo", createdAt := 0, updatedAt := 0 }

def t2 : Task := { id := 2, description := "pay bills", status := "todo", createdAt := 0, updatedAt := 0 }

def t3 : Task := { id := 3, description := "walk dog", status := "todo", createdAt := 0, updatedAt := 0 }

/-! ### Helper lemmas about the search-and-replace loop and the delete filter -/

lemma update_first_of_not_mem (task_id : Int) (f : Task → Task) :
    ∀ tasks : List Task, task_id ∉ tasks.map Task.id →
      update_first task_id f tasks = none := by
  intro tasks h
  induction tasks with
  | nil => rfl
  | cons t ts ih =>
      simp only [List.map_cons, List.mem_cons, not_or] at h
      simp only [update_first]
      rw [if_neg (fun he => h.1 he.symm), ih h.2]
      rfl

lemma map_update_eq_self (task_id : Int) (f : Task → Task) :
    ∀ ts : List Task, task_id ∉ ts.map Task.id →
      ts.map (fun t => if t.id = task_id then f t else t) = ts := by
  intro ts h
  induction ts with
  | nil => rfl
  | cons t ts ih =>
      simp only [List.map_cons, List.mem_cons, not_or] at h
      simp only [List.map_cons]
      rw [if_neg (fun he => h.1 he.symm), ih h.2]

lemma update_first_of_mem (task_id : Int) (f : Task → Task) :
    ∀ tasks : List Task, task_id ∈ tasks.map Task.id →
      (tasks.map Task.id).Nodup →
      update_first task_id f tasks
        = some (tasks.map (fun t => if t.id = task_id then f t else t)) := by
  intro tasks hmem hnodup
  induction tasks with
  | nil => simp at hmem
  | cons t ts ih =>
      simp only [List.map_cons] at hnodup
      rw [List.nodup_cons] at hnodup
      by_cases hid : t.id = task_id
      · simp only [update_first]
        rw [if_pos hid, List.map_cons, if_pos hid,
          map_update_eq_self task_id f ts (by rw [← hid]; exact hnodup.1)]
      · have hmem' : task_id ∈ ts.map Task.id := by
          simp only [List.map_cons, List.mem_cons] at hmem
          rcases hmem with h | h
          · exact absurd h.symm hid
          · exact h
        simp only [update_first]
        rw [if_neg hid, List.map_cons, if_neg hid, ih hmem' hnodup.2]
        rfl

lemma filter_ne_of_not_mem (task_id : Int) :
    ∀ tasks : List Task, task_id ∉ tasks.map Task.id →
      tasks.filter (fun t => t.id != task_id) = tasks := by
  intro tasks h
  induction tasks with
  | nil => rfl
  | cons t ts ih =>
      simp only [List.map_cons, List.mem_cons, not_or] at h
      rw [List.filter_cons_of_pos, ih h.2]
      simp only [bne_iff_ne, ne_eq]
      exact fun he => h.1 he.symm

/-! ### Claims -/

/-- C1: the claim says add assigns 1 + the maximum existing id (1 if
empty), so a deleted id is never reassigned while the collection stays
non-empty; the code computes `len(tasks) + 1`.  After deleting task 1
from a store with ids 1,2,3 the next add receives id 3, duplicating the
live id 3 where max+1 would give 4; after deleting task 3 instead, the
next add receives the just-deleted id 3 although the collection is
non-empty. -/
theorem c1_count_based_ids :
    (add_task "walk dog" 5 [t2, t3]).tasks.map Task.id = [2, 3, 3] ∧
    (delete_task 3 [t1, t2, t3]).tasks = [t1, t2] ∧
    (add_task "walk dog" 5 [t1, t2]).tasks.map Task.id = [1, 2, 3] := by
  refine ⟨rfl, ?_, rfl⟩
  rfl

/-- C2: id uniqueness is not an invariant of the collection: the ids
2,3 are distinct (such a collection arises by deleting task 1 from ids
1,2,3), yet add produces the ids 2,3,3. -/
theorem c2_add_breaks_uniqueness :
    ([t2, t3].map Task.id).Nodup ∧
    ¬ ((add_task "x" 0 [t2, t3]).tasks.map Task.id).Nodup := by
  decide

/-- C3: not every error kind is surfaced as a printed message: the
update command crashes with an uncaught `TypeError` on every integer id
because `main` calls `update_task(task_id)` without the required
`new_description` argument, and `add` on a store file holding valid
JSON that is not a list lets the `ValueError` from `read_tasks` escape
uncaught. -/
theorem c3_unhandled_exceptions :
    main_update_branch (some "1") = Outcome.crashed PyExc.typeError ∧
    add_task_read (some (some (Json.num 0))) = Except.error PyExc.valueError :=
  ⟨by decide, rfl⟩

/-- C4 counterexample: contrary to the claim, the core add operation
itself performs no description validation: called on the empty
collection with an empty description it appends a task whose
description is empty and writes the store, reporting success rather
than InvalidInput. -/
theorem c4_counterexample :
    (add_task "" 0 []).tasks
      = [{ id := 1, description := "", status := "todo", createdAt := 0, updatedAt := 0 }] ∧
    (add_task "" 0 []).wrote = true :=
  ⟨rfl, rfl⟩

/-- C4 amended: the rejection of an empty description happens in the
CLI dispatcher, not in `add_task`: the add branch of `main` reaches
`add_task` only for a truthy (present, non-empty) description and
otherwise prints an error, leaving the collection untouched and the
store unwritten; consequently every task the add command appends
carries the non-empty description it was given. -/
theorem c4_cli_rejects_empty_description :
    (∀ (info : Option String) (now : Nat) (tasks : List Task),
      pyTruthy info = false →
        main_add_branch info now tasks
          = { tasks := tasks, wrote := false,
              message := "Error: Missing task description for add command." }) ∧
    (∀ (info : Option String) (now : Nat) (tasks : List Task),
      ∀ u ∈ (main_add_branch info now tasks).tasks,
        u ∈ tasks ∨ (u.description = info.getD "" ∧ ¬ (info.getD "").isEmpty)) := by
  constructor
  · intro info now tasks h
    simp [main_add_branch, h]
  · intro info now tasks u hu
    by_cases h : pyTruthy info = true
    · simp only [main_add_branch, if_pos h, add_task, List.mem_append,
        List.mem_singleton] at hu
      rcases hu with hu | hu
      · exact Or.inl hu
      · refine Or.inr ⟨by rw [hu], ?_⟩
        cases info with
        | none => simp [pyTruthy] at h
        | some s => simpa [pyTruthy, Option.getD] using h
    · rw [Bool.not_eq_true] at h
      simp only [main_add_branch, h, Bool.false_eq_true, if_false] at hu
      exact Or.inl hu

theorem c4_witness :
    main_add_branch (some "") 0 [t1]
      = { tasks := [t1], wrote := false,
          message := "Error: Missing task description for add command." } :=
  c4_cli_rejects_empty_description.1 (some "") 0 [t1] (by decide)

/-- C5 counterexample: a store file whose content is the JSON array
`[1]` is valid structured data that is not an array of task records
(its element carries none of the five fields), yet `read_tasks`
returns it successfully instead of failing with Corrupt. -/
theorem c5_counterexample :
    read_tasks (some (some (Json.arr [Json.num 1]))) = Except.ok [Json.num 1] ∧
    isTaskRecord (Json.num 1) = false :=
  ⟨rfl, rfl⟩

/-- C5 amended: `read_tasks` fails with Corrupt (`ValueError`) exactly
when the content is unparsable or parses to a non-array; any array —
with no per-record validation of the five fields — is returned exactly
as stored, order preserved; a missing file is NotFound. -/
theorem c5_load_validation (j : Json) :
    (∀ l, j = Json.arr l → read_tasks (some (some j)) = Except.ok l) ∧
    ((∀ l, j ≠ Json.arr l) → read_tasks (some (some j)) = Except.error PyExc.valueError) ∧
    read_tasks (some none) = Except.error PyExc.valueError ∧
    read_tasks none = Except.error PyExc.fileNotFoundError := by
  refine ⟨?_, ?_, rfl, rfl⟩
  · rintro l rfl
    rfl
  · intro h
    cases j with
    | arr l => exact absurd rfl (h l)
    | null => rfl
    | bool b => rfl
    | num n => rfl
    | str s => rfl
    | obj fields => rfl

theorem c5_witness :
    read_tasks (some (some (Json.arr [Json.num 1, Json.null])))
      = Except.ok [Json.num 1, Json.null] ∧
    read_tasks (some (some Json.null)) = Except.error PyExc.valueError :=
  ⟨(c5_load_validation (Json.arr [Json.num 1, Json.null])).1 _ rfl,
   (c5_load_validation Json.null).2.1 (fun _ h => Json.noConfusion h)⟩

/-- C6: on a task id absent from the collection, update, mark and
delete all report not-found, leave the collection exactly as read, and
do not write the store file. -/
theorem c6_notfound_is_noop (task_id : Int) (d s : String) (now : Nat)
    (tasks : List Task) (h : task_id ∉ tasks.map Task.id) :
    update_task task_id d now tasks
      = { tasks := tasks, wrote := false,
          message := "Task with ID " ++ toString task_id ++ " not found." } ∧
    mark_task task_id s now tasks
      = { tasks := tasks, wrote := false,
          message := "Task with ID " ++ toString task_id ++ " not found." } ∧
    delete_task task_id tasks
      = { tasks := tasks, wrote := false,
          message := "Task with ID " ++ toString task_id ++ " not found." } := by
  refine ⟨?_, ?_, ?_⟩
  · unfold update_task
    rw [update_first_of_not_mem task_id _ tasks h]
  · unfold mark_task
    rw [update_first_of_not_mem task_id _ tasks h]
  · unfold delete_task
    rw [filter_ne_of_not_mem task_id tasks h]
    simp

theorem c6_witness :
    update_task 999 "x" 7 [t1, t2, t3]
      = { tasks := [t1, t2, t3], wrote := false,
          message := "Task with ID " ++ toString (999 : Int) ++ " not found." } ∧
    delete_task 999 [t1, t2, t3]
      = { tasks := [t1, t2, t3], wrote := false,
          message := "Task with ID " ++ toString (999 : Int) ++ " not found." } :=
  ⟨(c6_notfound_is_noop 999 "x" "done" 7 [t1, t2, t3] (by decide)).1,
   (c6_notfound_is_noop 999 "x" "done" 7 [t1, t2, t3] (by decide)).2.2⟩

/-- C7: on a task id present in a duplicate-free collection, update and
mark produce exactly the original collection with the matching task's
description (resp. status) and `updatedAt` replaced — every other task,
and every remaining field of the matching task, `createdAt` included,
is unchanged — and, assuming the wall clock has not run backwards past
any stored `updatedAt`, every task's new `updatedAt` is >= its old
one. -/
theorem c7_update_mark_frame (task_id : Int) (d s : String) (now : Nat)
    (tasks : List Task)
    (hmem : task_id ∈ tasks.map Task.id)
    (hnodup : (tasks.map Task.id).Nodup)
    (hclock : ∀ t ∈ tasks, t.updatedAt ≤ now) :
    (update_task task_id d now tasks).tasks
      = tasks.map (fun t => if t.id = task_id then
          { t with description := d, updatedAt := now } else t) ∧
    (mark_task task_id s now tasks).tasks
      = tasks.map (fun t => if t.id = task_id then
          { t with status := s, updatedAt := now } else t) ∧
    (∀ u ∈ (update_task task_id d now tasks).tasks,
      ∃ t ∈ tasks, u.id = t.id ∧ u.createdAt = t.createdAt ∧ t.updatedAt ≤ u.updatedAt) ∧
    (∀ u ∈ (mark_task task_id s now tasks).tasks,
      ∃ t ∈ tasks, u.id = t.id ∧ u.createdAt = t.createdAt ∧ t.updatedAt ≤ u.updatedAt) := by
  have hu : (update_task task_id d now tasks).tasks
      = tasks.map (fun t => if t.id = task_id then
          { t with description := d, updatedAt := now } else t) := by
    unfold update_task
    rw [update_first_of_mem task_id _ tasks hmem hnodup]
  have hm : (mark_task task_id s now tasks).tasks
      = tasks.map (fun t => if t.id = task_id then
          { t with status := s, updatedAt := now } else t) := by
    unfold mark_task
    rw [update_first_of_mem task_id _ tasks hmem hnodup]
  refine ⟨hu, hm, ?_, ?_⟩
  · intro u humem
    rw [hu] at humem
    obtain ⟨t, ht, rfl⟩ := List.mem_map.mp humem
    by_cases hid : t.id = task_id
    · simp only [if_pos hid]
      exact ⟨t, ht, rfl, rfl, hclock t ht⟩
    · simp only [if_neg hid]
      exact ⟨t, ht, rfl, rfl, le_refl _⟩
  · intro u humem
    rw [hm] at humem
    obtain ⟨t, ht, rfl⟩ := List.mem_map.mp humem
    by_cases hid : t.id = task_id
    · simp only [if_pos hid]
      exact ⟨t, ht, rfl, rfl, hclock t ht⟩
    · simp only [if_neg hid]
      exact ⟨t, ht, rfl, rfl, le_refl _⟩

theorem c7_witness :
    (update_task 1 "call mom" 9 [t1, t2]).tasks
      = [t1, t2].map (fun t => if t.id = 1 then
          { t with description := "call mom", updatedAt := 9 } else t) ∧
    (mark_task 1 "done" 9 [t1, t2]).tasks
      = [t1, t2].map (fun t => if t.id = 1 then
          { t with status := "done", updatedAt := 9 } else t) :=
  ⟨(c7_update_mark_frame 1 "call mom" "done" 9 [t1, t2]
      (by decide) (by decide) (by decide)).1,
   (c7_update_mark_frame 1 "call mom" "done" 9 [t1, t2]
      (by decide) (by decide) (by decide)).2.1⟩

/-- C8 counterexample: with the empty string as the filter, the claim
as stated would yield the subsequence of tasks whose status is the
empty string — here empty — but `list_tasks` returns the full
collection, because the filter runs only under Python truthiness. -/
theorem c8_counterexample :
    list_tasks (some "") [t1] = [t1] ∧
    [t1].filter (fun t => t.status == "") = [] ∧
    list_tasks (some "") [t1] ≠ [t1].filter (fun t => t.status == "") := by
  decide

/-- C8 amended: for every non-empty status filter, list returns exactly
the subsequence of the collection whose status equals the filter (so an
unrecognized status such as "archived" yields an empty result, not an
error), and with no filter the full collection in order; the empty
string is the one filter value excepted (see C10).  The embedding of
`list_tasks` is a pure selection: the source function never calls
`write_tasks`, so the collection and store are not mutated. -/
theorem c8_list_filter (tasks : List Task) (s : String)
    (h : ¬ s.isEmpty = true) :
    list_tasks (some s) tasks = tasks.filter (fun t => t.status == s) ∧
    list_tasks none tasks = tasks := by
  constructor
  · simp [list_tasks, h]
  · rfl

theorem c8_witness :
    list_tasks (some "archived") [t1, t2]
      = [t1, t2].filter (fun t => t.status == "archived") ∧
    list_tasks none [t1, t2] = [t1, t2] :=
  c8_list_filter [t1, t2] "archived" (by decide)

/-- C9: `mark_task` stores an arbitrary status string verbatim — also
one outside todo / in-progress / done — refreshes `updatedAt`, and
writes the store: no status validation happens in the core mark
operation. -/
theorem c9_mark_stores_verbatim (task_id : Int) (s : String) (now : Nat)
    (tasks : List Task)
    (hmem : task_id ∈ tasks.map Task.id)
    (hnodup : (tasks.map Task.id).Nodup) :
    (mark_task task_id s now tasks).tasks
      = tasks.map (fun t => if t.id = task_id then
          { t with status := s, updatedAt := now } else t) ∧
    (mark_task task_id s now tasks).wrote = true ∧
    ∃ u ∈ (mark_task task_id s now tasks).tasks, u.id = task_id ∧ u.status = s := by
  have hsome := update_first_of_mem task_id
    (fun t => { t with status := s, updatedAt := now }) tasks hmem hnodup
  obtain ⟨t, ht, hid⟩ := List.mem_map.mp hmem
  refine ⟨?_, ?_, ?_⟩
  · unfold mark_task
    rw [hsome]
  · unfold mark_task
    rw [hsome]
  · refine ⟨{ t with status := s, updatedAt := now }, ?_, hid, rfl⟩
    unfold mark_task
    rw [hsome]
    exact List.mem_map.mpr ⟨t, ht, by rw [if_pos hid]⟩

theorem c9_witness :
    (mark_task 1 "archived" 4 [t1]).tasks
      = [t1].map (fun t => if t.id = 1 then
          { t with status := "archived", updatedAt := 4 } else t) ∧
    (mark_task 1 "archived" 4 [t1]).wrote = true :=
  ⟨(c9_mark_stores_verbatim 1 "archived" 4 [t1] (by decide) (by decide)).1,
   (c9_mark_stores_verbatim 1 "archived" 4 [t1] (by decide) (by decide)).2.1⟩

/-- C10: the empty string as the status filter behaves exactly like no
filter — the full collection is returned, not the subset whose status
equals the empty string — because the source applies the filter only
under `if status:`, which is false for the empty string. -/
theorem c10_empty_filter_is_no_filter (tasks : List Task) :
    list_tasks (some "") tasks = tasks ∧
    list_tasks (some "") tasks = list_tasks none tasks :=
  ⟨rfl, rfl⟩

end TaskCli
